import Mathlib

/-!
Verification of the insurance-claim processing core found in
`src/insurance_claim_web_app/backend`.  The three services
(document classifier, keyword extractor, liability evaluator) are
shallowly embedded here:

* Python strings are `List Char` (`Str`); `str.lower` is modelled by
  ASCII case-mapping (`Char.toLower`), which agrees with Python on all
  characters appearing in the configuration tables and in the claims.
* Python floats are modelled by `ℚ` with exact decimal semantics;
  `round(x, 2)` is modelled by round-half-to-even at two decimals.
* `datetime.now()` (consulted by the gender/age risk rule) is made an
  explicit parameter `nowOrd : Int`, the proleptic-Gregorian ordinal of
  the current date exactly as computed by `datetime.date.toordinal`.
* `re.findall` on the configured extraction patterns is modelled by an
  executable backtracking matcher over a syntax tree covering exactly
  the constructs used by the configuration (literals, character
  classes, alternation, greedy star/plus/option, bounded repetition,
  capturing groups), with Python's leftmost, left-alternative-first,
  greedy priority order and IGNORECASE matching.
-/

attribute [local semireducible] Rat.mul Rat.inv Rat.add Rat.sub

/-- Python strings, as lists of characters. -/
abbrev Str := List Char

def strLit (s : String) : Str := s.toList

/-- Whitespace as recognised by Python `str.strip` / regex `\s`
(ASCII part: space, tab, newline, carriage return, vertical tab,
form feed). -/
def isSpacePy (c : Char) : Bool :=
  c = ' ' || c = '\t' || c = '\n' || c = '\r' || c = '\x0b' || c = '\x0c'

/-- Model of Python `str.lower` (ASCII case mapping). -/
def lowerStr (l : Str) : Str := l.map Char.toLower

/-- Model of Python `str.strip`: drop trailing whitespace, then leading
whitespace. -/
def trimPy (l : Str) : Str :=
  ((l.reverse.dropWhile isSpacePy).reverse).dropWhile isSpacePy

/-- Boolean test for list prefixes (`l₁` begins `l₂`). -/
def startsWithSub : Str → Str → Bool
  | [], _ => true
  | _ :: _, [] => false
  | a :: as, b :: bs => a = b && startsWithSub as bs

/-- Boolean model of Python's substring operator `needle in hay`. -/
def containsSub (needle : Str) : Str → Bool
  | [] => startsWithSub needle []
  | c :: t => startsWithSub needle (c :: t) || containsSub needle t

/-- Model of Python `str.isdigit` (ASCII digits): non-empty and all
digits. -/
def isdigitStr (l : Str) : Bool := !l.isEmpty && l.all Char.isDigit

/-- Decimal value of a digit string, as `int(s)` computes it. -/
def natOfDigits (l : Str) : Nat :=
  l.foldl (fun n c => 10 * n + (c.toNat - 48)) 0

/-- Round-half-to-even to an integer (semantics of Python `round` on
exact values). -/
def roundHalfEven (x : ℚ) : ℤ :=
  let f := ⌊x⌋
  let r := x - f
  if r < 1/2 then f
  else if 1/2 < r then f + 1
  else if f % 2 = 0 then f else f + 1

/-- Model of Python `round(x, 2)`. -/
def round2 (x : ℚ) : ℚ := (roundHalfEven (x * 100) : ℚ) / 100

/-- First match of the regex `\d+(?:\.\d+)?` in a string, as a rational
(value of Python `float` on the matched token).  Mirrors
`re.findall(r'\d+(?:\.\d+)?', s)` followed by `float(numbers[0])` in
`liability_evaluator.py` (lines 303-305 and 438-441). -/
def parseFirstNumber : Str → Option ℚ
  | [] => none
  | c :: t =>
    if c.isDigit then
      let ip := (c :: t).takeWhile Char.isDigit
      let rest := (c :: t).dropWhile Char.isDigit
      some (match rest with
        | '.' :: r2 =>
          let fr := r2.takeWhile Char.isDigit
          if fr.isEmpty then (natOfDigits ip : ℚ)
          else (natOfDigits ip : ℚ) + (natOfDigits fr : ℚ) / (10 : ℚ) ^ fr.length
        | _ => (natOfDigits ip : ℚ))
    else parseFirstNumber t

/-! ### Data model (`backend/models/claim.py`) -/

/-- `DocumentType` enumeration, in source declaration order
(`models/claim.py` lines 21-28). -/
inductive DocumentType where
  | medical_record
  | accident_report
  | invoice
  | identity_card
  | bank_statement
  | insurance_contract
deriving DecidableEq, Repr

/-- `ExtractedField` (`models/claim.py` lines 41-47); `page_number` and
`position` are omitted because the extraction path never sets them. -/
structure ExtractedField where
  field_name : String
  field_value : Str
  confidence : ℚ
deriving DecidableEq, Repr

/-- `ExtractionResult` (`models/claim.py` lines 58-62). -/
structure ExtractionResult where
  document_id : String
  extracted_fields : List ExtractedField
  extraction_accuracy : ℚ
deriving DecidableEq, Repr

/-- `ClassificationResult` (`models/claim.py` lines 50-55); the
`document_id` (a fresh uuid in the source) is omitted. -/
structure ClassificationRes where
  predicted_type : DocumentType
  confidence : ℚ
  alternative_types : List DocumentType
deriving DecidableEq, Repr

/-- `LiabilityEvaluation` (`models/claim.py` lines 65-72). -/
structure LiabilityEvaluation where
  coverage_applicable : Bool
  exclusion_factors : List Str
  coverage_limit : Option ℚ
  recommended_payout : ℚ
  evaluation_reasons : List Str
  confidence : ℚ
deriving DecidableEq, Repr

/-! ### Document classifier (`services/document_classifier.py`) -/

/-- `self.supported_types` (lines 25-32). -/
def supportedTypes : List DocumentType :=
  [DocumentType.medical_record, DocumentType.accident_report,
   DocumentType.invoice, DocumentType.identity_card,
   DocumentType.bank_statement, DocumentType.insurance_contract]

/-- `self.keyword_mapping` (lines 35-42). -/
def keywordMapping : DocumentType → List Str
  | DocumentType.medical_record =>
    [strLit "病历", strLit "诊断", strLit "入院", strLit "出院",
     strLit "医嘱", strLit "检查", strLit "检验", strLit "病理", strLit "门诊"]
  | DocumentType.accident_report =>
    [strLit "事故", strLit "现场", strLit "交警", strLit "认定书",
     strLit "碰撞", strLit "损伤", strLit "报案", strLit "调查"]
  | DocumentType.invoice =>
    [strLit "发票", strLit "金额", strLit "费用", strLit "收据",
     strLit "结算", strLit "收费", strLit "凭证"]
  | DocumentType.identity_card =>
    [strLit "身份证", strLit "姓名", strLit "性别", strLit "出生",
     strLit "地址", strLit "证件"]
  | DocumentType.bank_statement =>
    [strLit "银行", strLit "流水", strLit "转账", strLit "账户",
     strLit "存款", strLit "取款", strLit "余额"]
  | DocumentType.insurance_contract =>
    [strLit "保险", strLit "合同", strLit "条款", strLit "投保",
     strLit "受益", strLit "保费", strLit "保障"]

/-- Keyword-presence score of one document type (`_classify_content`
lines 108-113): number of configured keywords occurring
case-insensitively in the content, each counted at most once. -/
def scoreOf (dt : DocumentType) (content : Str) : Nat :=
  (keywordMapping dt).countP (fun kw => containsSub (lowerStr kw) (lowerStr content))

/-- The `scores` dict of `_classify_content`, in insertion
(= enumeration) order. -/
def classifyScores (content : Str) : List (DocumentType × Nat) :=
  supportedTypes.map (fun dt => (dt, scoreOf dt content))

/-- Python `max(scores, key=scores.get)` over an association list in
iteration order: the first entry with the (strictly) maximal value
survives. -/
def pyMaxBySnd {α : Type} : List (α × Nat) → Option (α × Nat)
  | [] => none
  | h :: t => some (t.foldl (fun best x => if x.2 > best.2 then x else best) h)

/-- `total_keywords` (line 120). -/
def totalKeywordCount : Nat :=
  (supportedTypes.map (fun dt => (keywordMapping dt).length)).sum

/-- `_classify_content` (lines 94-127).  `scores` is always the
six-entry list, so the `none` branch of `pyMaxBySnd` is unreachable
(Python `max` would raise on an empty dict). -/
def classifyContent (content : Str) : DocumentType × ℚ :=
  match pyMaxBySnd (classifyScores content) with
  | none => (DocumentType.medical_record, 1/10)
  | some best =>
    let confidence : ℚ :=
      min ((best.2 : ℚ) / ((max 1 (totalKeywordCount / supportedTypes.length) : Nat) : ℚ)) 1
    if best.2 = 0 then (DocumentType.medical_record, 1/10)
    else (best.1, confidence)

/-- `_get_alternative_types` (lines 129-142). -/
def getAlternativeTypes (primary : DocumentType) : List DocumentType :=
  (supportedTypes.filter (fun t => t ≠ primary)).take 3

/-- Pure core of `classify_document` (lines 44-71): classification plus
alternative types (the fresh uuid `document_id` is omitted). -/
def classify (content : Str) : ClassificationRes :=
  let pc := classifyContent content
  { predicted_type := pc.1, confidence := pc.2,
    alternative_types := getAlternativeTypes pc.1 }

/-! ### Liability evaluator (`services/liability_evaluator.py`) -/

/-- One entry of the merged field dict
(`{'value': ..., 'confidence': ...}`, lines 177-180). -/
structure FieldEntry where
  value : Str
  confidence : ℚ
deriving DecidableEq, Repr

/-- The merged field dict.  Assignments cons to the front, so
`List.lookup` (first hit) realises Python-dict lookup semantics where
the most recent assignment to a key wins. -/
abbrev FieldMap := List (String × FieldEntry)

/-- Python `fields.get(k, {}).get('value', dflt)`. -/
def getFieldValue (m : FieldMap) (k : String) (dflt : Str) : Str :=
  match List.lookup k m with
  | some e => e.value
  | none => dflt

/-- `_merge_extraction_results` (lines 164-181): nested loops over
results and their fields, each field assigned into the dict keyed by
`field_name` (later assignments override earlier ones). -/
def mergeExtractionResults (results : List ExtractionResult) : FieldMap :=
  results.foldl
    (fun m r =>
      r.extracted_fields.foldl
        (fun m f => (f.field_name, FieldEntry.mk f.field_value f.confidence) :: m) m)
    []

/-- Shape of one policy-terms bundle as read by the evaluator.  The
`limits` dict accesses become fields: `年度报销上限` and `单次住院上限`
with `.get` default "missing" (`Option.none` models absence, read as
`float('inf')` / no cap in `_calculate_recommended_payout`), and
`自付比例` with `.get` default `0` folded in. -/
structure PolicyInfo where
  name : Str
  coverage : List Str
  exclusions : List Str
  annualLimit : Option ℚ
  singleVisitLimit : Option ℚ
  selfPayFrac : ℚ
  waiting_period : Nat
deriving DecidableEq, Repr

/-- `self.policy_terms_db["health_insurance_basic"]` (lines 31-41). -/
def healthInsuranceBasic : PolicyInfo :=
  { name := strLit "基本医疗保险"
    coverage := [strLit "住院费用", strLit "手术费用", strLit "药品费用(医保目录内)"]
    exclusions := [strLit "既往症", strLit "美容手术", strLit "牙科治疗", strLit "生育相关"]
    annualLimit := some 100000
    singleVisitLimit := some 30000
    selfPayFrac := 1/10
    waiting_period := 30 }

/-- `_parse_policy_terms` (lines 183-200): both branches return the
basic health-insurance bundle. -/
def parsePolicyTerms (contract_terms : Option String) : PolicyInfo :=
  match contract_terms with
  | some _ => healthInsuranceBasic
  | none => healthInsuranceBasic

/-- `_check_coverage` (lines 202-231): covered iff a non-empty
`diagnosis` field is present (the waiting-period branch is a `pass`).
Returns `(is_covered, issues)`. -/
def checkCoverage (fields : FieldMap) (_policy : PolicyInfo) : Bool × List Str :=
  let diagnosis := getFieldValue fields "diagnosis" []
  if !diagnosis.isEmpty then (true, [])
  else (false, [strLit "缺少诊断信息，无法确认是否在保障范围内"])

/-- `_check_exclusions` (lines 233-255). -/
def checkExclusions (fields : FieldMap) (policy : PolicyInfo) : List Str :=
  let diagnosis := lowerStr (getFieldValue fields "diagnosis" [])
  let treatment := lowerStr (getFieldValue fields "treatment_details" [])
  policy.exclusions.filter
    (fun e => containsSub (lowerStr e) diagnosis || containsSub (lowerStr e) treatment)

/-! Date support for `_check_gender_age_inconsistency`.  The Python
code parses `birth_date` with `datetime.strptime(..., "%Y-%m-%d")`
after replacing `年`/`月` by `-` and deleting `日`, then computes
`(datetime.now() - birth_dt).days // 365`.  Dates are represented by
their proleptic-Gregorian ordinal (`datetime.date.toordinal`). -/

def isLeapYear (y : Nat) : Bool :=
  y % 4 = 0 && (y % 100 ≠ 0 || y % 400 = 0)

def daysInMonth (y m : Nat) : Nat :=
  if m = 2 then (if isLeapYear y then 29 else 28)
  else if m = 4 ∨ m = 6 ∨ m = 9 ∨ m = 11 then 30
  else 31

def daysBeforeMonth (y m : Nat) : Nat :=
  (List.range (m - 1)).foldl (fun acc i => acc + daysInMonth y (i + 1)) 0

/-- `datetime.date.toordinal` for year `y ≥ 1`, month `m`, day `d`. -/
def ymd2ord (y m d : Nat) : Nat :=
  365 * (y - 1) + (y - 1) / 4 - (y - 1) / 100 + (y - 1) / 400 + daysBeforeMonth y m + d

/-- `datetime.strptime(s, "%Y-%m-%d")` followed by `.toordinal()`:
exactly four year digits, one or two month and day digits, ranges
validated (including month length and Python's MINYEAR = 1); `none`
models the `ValueError` caught by the surrounding `except`. -/
def parseDateYMD (l : Str) : Option Nat :=
  match l.splitOn '-' with
  | [ys, ms, ds] =>
    if ys.length = 4 && ys.all Char.isDigit
        && 1 ≤ ms.length && ms.length ≤ 2 && ms.all Char.isDigit
        && 1 ≤ ds.length && ds.length ≤ 2 && ds.all Char.isDigit then
      let y := natOfDigits ys
      let m := natOfDigits ms
      let d := natOfDigits ds
      if 1 ≤ y && 1 ≤ m && m ≤ 12 && 1 ≤ d && d ≤ daysInMonth y m then
        some (ymd2ord y m d)
      else none
    else none
  | _ => none

/-- The `replace("年", "-").replace("月", "-").replace("日", "")` chain
(line 402). -/
def replYMD (l : Str) : Str :=
  (((l.map (fun c => if c = '年' then '-' else c)).map
      (fun c => if c = '月' then '-' else c)).filter (fun c => c ≠ '日'))

/-- `_check_gender_age_inconsistency` (lines 389-417); `nowOrd` is the
ordinal of the current date (`datetime.now()`). -/
def checkGenderAgeInconsistency (fields : FieldMap) (nowOrd : Int) : Bool :=
  let gender := lowerStr (getFieldValue fields "gender" [])
  let ageOpt : Option Int :=
    if isdigitStr (getFieldValue fields "age" []) then
      some ((natOfDigits (getFieldValue fields "age" []) : Int))
    else
      let birth := getFieldValue fields "birth_date" []
      if !birth.isEmpty then
        match parseDateYMD (replYMD birth) with
        | some bord => some (Int.fdiv (nowOrd - (bord : Int)) 365)
        | none => none
      else none
  match ageOpt with
  | none => false
  | some age =>
    if containsSub (strLit "女") gender && age < 18 then
      (strLit "孕" :: strLit "产" :: strLit "妇科" :: []).any
        (fun kw => containsSub kw (lowerStr (getFieldValue fields "diagnosis" [])))
    else false

/-- `_check_pre_existing_conditions` (lines 419-430). -/
def checkPreExisting (fields : FieldMap) : Bool :=
  let medical_history := lowerStr (getFieldValue fields "medical_history" [])
  let diagnosis := lowerStr (getFieldValue fields "diagnosis" [])
  if !medical_history.isEmpty && !diagnosis.isEmpty then
    containsSub diagnosis medical_history
  else false

/-- `_check_abnormal_cost` (lines 432-445). -/
def checkAbnormalCost (fields : FieldMap) : Bool :=
  let s := (getFieldValue fields "invoice_amount" (strLit "0")).filter (fun c => c ≠ ',')
  match parseFirstNumber s with
  | some amount => amount > 20000
  | none => false

/-- `_check_medication_diagnosis_match` (lines 447-458). -/
def checkMedicationMatch (fields : FieldMap) : Bool :=
  let diagnosis := lowerStr (getFieldValue fields "diagnosis" [])
  let medications := lowerStr (getFieldValue fields "medications" [])
  containsSub (strLit "抗生素") medications
    && !containsSub (strLit "感染") diagnosis
    && !containsSub (strLit "炎症") diagnosis

/-- One entry of `self.risk_rules` (lines 56-81).  The condition takes
the current-date ordinal because `_check_gender_age_inconsistency`
reads the ambient clock. -/
structure RiskRule where
  name : Str
  condition : FieldMap → Int → Bool
  severity : Str
  description : String

/-- A triggered risk descriptor (lines 271-275). -/
structure RiskFactor where
  name : Str
  severity : Str
  description : String
deriving DecidableEq, Repr

/-- `self.risk_rules` (lines 56-81), in declaration order. -/
def riskRules : List RiskRule :=
  [ { name := strLit "性别年龄不符"
      condition := fun fields nowOrd => checkGenderAgeInconsistency fields nowOrd
      severity := strLit "high"
      description := "被保险人性别与年龄不匹配" },
    { name := strLit "既往症检测"
      condition := fun fields _ => checkPreExisting fields
      severity := strLit "high"
      description := "疑似既往症" },
    { name := strLit "费用异常高"
      condition := fun fields _ => checkAbnormalCost fields
      severity := strLit "medium"
      description := "费用超出合理范围" },
    { name := strLit "诊断与用药不符"
      condition := fun fields _ => checkMedicationMatch fields
      severity := strLit "high"
      description := "药物与诊断不匹配" } ]

/-- `_apply_risk_rules` (lines 257-277). -/
def applyRiskRules (fields : FieldMap) (nowOrd : Int) : List RiskFactor :=
  (riskRules.filter (fun r => r.condition fields nowOrd)).map
    (fun r => RiskFactor.mk r.name r.severity r.description)

/-- `_calculate_recommended_payout` (lines 279-320). -/
def calculateRecommendedPayout (fields : FieldMap) (policy : PolicyInfo)
    (coverage_applicable : Bool) (exclusion_factors : List Str) : ℚ :=
  if !coverage_applicable || !exclusion_factors.isEmpty then 0
  else
    let s := (getFieldValue fields "invoice_amount" (strLit "0")).filter (fun c => c ≠ ',')
    let invoice_amount := (parseFirstNumber s).getD 0
    let payout := invoice_amount * (1 - policy.selfPayFrac)
    let capped :=
      match policy.annualLimit with
      | some lim => min payout lim
      | none => payout
    round2 capped

/-- `_calculate_evaluation_confidence` (lines 322-349). -/
def calculateEvaluationConfidence (coverage_applicable : Bool)
    (exclusion_count risk_count : Nat) : ℚ :=
  let base : ℚ := 9/10
  let b1 := if coverage_applicable then base else base - 3/10
  let b2 := if exclusion_count > 0 then b1 - 2/10 * exclusion_count else b1
  let b3 := if risk_count > 0 then b2 - 1/10 * risk_count else b2
  max b3 (1/10)

/-- `Nat` rendered in decimal (Python f-string `{n}`). -/
def natDigits (n : Nat) : Str := Nat.toDigits 10 n

/-- `', '.join(...)`. -/
def joinComma (l : List Str) : Str := List.intercalate (strLit ", ") l

/-- `_generate_evaluation_reasons` (lines 351-386). -/
def generateEvaluationReasons (coverage_applicable : Bool)
    (coverage_issues : List Str) (exclusion_factors : List Str)
    (risk_factors : List RiskFactor) : List Str :=
  let r1 :=
    if coverage_applicable then [strLit "案件在保险保障范围内"]
    else strLit "案件可能不在保障范围内" :: coverage_issues
  let r2 :=
    if !exclusion_factors.isEmpty then
      [strLit "发现" ++ natDigits exclusion_factors.length
        ++ strLit "个免责因素: " ++ joinComma exclusion_factors]
    else []
  let r3 :=
    if !risk_factors.isEmpty then
      [strLit "检测到" ++ natDigits risk_factors.length
        ++ strLit "个风险点: " ++ joinComma (risk_factors.map (fun rf => rf.name))]
    else []
  let r4 :=
    if coverage_issues.isEmpty && exclusion_factors.isEmpty && risk_factors.isEmpty then
      [strLit "未发现明显风险或免责情况"]
    else []
  r1 ++ r2 ++ r3 ++ r4

/-- `evaluate_claim` (lines 83-148) applied to an already-merged field
map (the spec's `evaluate(fields, policy)` entry point; the claim-data
fetch of lines 94-98 is the caller's concern).  `nowOrd` is the
current-date ordinal consulted by the gender/age risk rule. -/
def evaluateCore (fields : FieldMap) (contract_terms : Option String)
    (nowOrd : Int) : LiabilityEvaluation :=
  let policy := parsePolicyTerms contract_terms
  let cc := checkCoverage fields policy
  let exclusion_factors := checkExclusions fields policy
  let risk_factors := applyRiskRules fields nowOrd
  let recommended_payout :=
    calculateRecommendedPayout fields policy cc.1 exclusion_factors
  let confidence :=
    calculateEvaluationConfidence cc.1 exclusion_factors.length risk_factors.length
  let evaluation_reasons :=
    generateEvaluationReasons cc.1 cc.2 exclusion_factors risk_factors
  { coverage_applicable := cc.1
    exclusion_factors := exclusion_factors
    coverage_limit := policy.annualLimit
    recommended_payout := recommended_payout
    evaluation_reasons := evaluation_reasons
    confidence := confidence }

/-! ### Regular-expression engine (`re.findall` as used by
`services/keyword_extractor.py`).

The configured extraction patterns use only: literal characters,
character classes (including `\d`, `\s`, `\w`, ranges and negation),
alternation, greedy `*`, `+`, `?` and `{n}`/`{1,2}` repetition,
non-capturing and capturing groups.  The matcher below implements
Python's backtracking semantics for exactly these constructs: results
are produced in Python's priority order (leftmost position first, then
left alternative first, greedy quantifiers longest first), so the head
of the result list is Python's match.  `re.IGNORECASE` is modelled by
also testing the ASCII case-flipped character against each class item
or literal.  `\w` is modelled as ASCII alphanumeric, underscore, or a
CJK unified ideograph, which agrees with Python's unicode `\w` on
every character occurring in the configuration and the documents
considered here. -/

/-- One item of a character class. -/
inductive CItem where
  | ch (c : Char)
  | crange (lo hi : Char)
  | digit
  | space
  | word
deriving DecidableEq, Repr

/-- Model of regex `\w` (see module comment). -/
def isWordPy (c : Char) : Bool :=
  c.isAlphanum || c = '_' || (0x4E00 ≤ c.toNat && c.toNat ≤ 0x9FFF)

def citemMatchBase : CItem → Char → Bool
  | CItem.ch a, c => a = c
  | CItem.crange lo hi, c => lo ≤ c && c ≤ hi
  | CItem.digit, c => c.isDigit
  | CItem.space, c => isSpacePy c
  | CItem.word, c => isWordPy c

/-- Class-item match under IGNORECASE. -/
def citemMatch (it : CItem) (c : Char) : Bool :=
  citemMatchBase it c || citemMatchBase it c.toLower || citemMatchBase it c.toUpper

/-- Character-class match (`neg` for `[^...]`). -/
def clsMatch (neg : Bool) (items : List CItem) (c : Char) : Bool :=
  let m := items.any (fun it => citemMatch it c)
  if neg then !m else m

/-- Regex syntax tree; `grp` carries the Python group number. -/
inductive RE where
  | eps
  | lit (c : Char)
  | cls (neg : Bool) (items : List CItem)
  | seq (a b : RE)
  | alt (a b : RE)
  | grp (idx : Nat) (r : RE)
  | star (r : RE)
  | opt (r : RE)
deriving DecidableEq, Repr

/-- Group captures of one match attempt: `(group number, captured
substring)` in capture order. -/
abbrev Caps := List (Nat × Str)

/-- One step of the backtracking matcher: all `(remaining input,
captures)` outcomes of matching a regex at the start of `s`, in
Python's priority order.  `prev` is the lower-fuel matcher used for
`star` iterations (each of which must consume at least one character,
as Python's repeat of an empty match stops). -/
def reMatchStep (prev : RE → Str → List (Str × Caps)) : RE → Str → List (Str × Caps)
  | RE.eps, s => [(s, [])]
  | RE.lit _, [] => []
  | RE.lit p, c :: rest => if p.toLower = c.toLower then [(rest, [])] else []
  | RE.cls _ _, [] => []
  | RE.cls neg items, c :: rest => if clsMatch neg items c then [(rest, [])] else []
  | RE.seq a b, s =>
    (reMatchStep prev a s).flatMap (fun rc =>
      (reMatchStep prev b rc.1).map (fun rc2 => (rc2.1, rc.2 ++ rc2.2)))
  | RE.alt a b, s => reMatchStep prev a s ++ reMatchStep prev b s
  | RE.grp i r, s =>
    (reMatchStep prev r s).map (fun rc =>
      (rc.1, rc.2 ++ [(i, s.take (s.length - rc.1.length))]))
  | RE.star r, s =>
    ((reMatchStep prev r s).flatMap (fun rc =>
      if rc.1.length < s.length then
        (prev (RE.star r) rc.1).map (fun rc2 => (rc2.1, rc.2 ++ rc2.2))
      else []))
    ++ [(s, [])]
  | RE.opt r, s => reMatchStep prev r s ++ [(s, [])]

/-- Fuelled matcher; fuel bounds the number of `star` iterations, each
of which consumes at least one character, so `length + 1` fuel is
always sufficient. -/
def reMatchFuel : Nat → RE → Str → List (Str × Caps)
  | 0 => reMatchStep (fun _ _ => [])
  | fuel + 1 => reMatchStep (reMatchFuel fuel)

/-- Python's match of `r` anchored at the start of `s`: whole matched
text and captures. -/
def reFirstAt (r : RE) (s : Str) : Option (Str × Caps) :=
  match reMatchFuel (s.length + 1) r s with
  | [] => none
  | m :: _ => some (s.take (s.length - m.1.length), m.2)

/-- Python's first (leftmost) match of `r` in `s`
(= `re.findall(...)[0]` when non-empty). -/
def reSearch (r : RE) : Str → Option (Str × Caps)
  | [] => reFirstAt r []
  | c :: t =>
    match reFirstAt r (c :: t) with
    | some m => some m
    | none => reSearch r t

/-- Number of capturing groups of a pattern. -/
def ngroups : RE → Nat
  | RE.eps => 0
  | RE.lit _ => 0
  | RE.cls _ _ => 0
  | RE.seq a b => ngroups a + ngroups b
  | RE.alt a b => ngroups a + ngroups b
  | RE.grp _ r => ngroups r + 1
  | RE.star r => ngroups r
  | RE.opt r => ngroups r

/-- Captured text of group `i` (last capture wins, `''` if the group
did not participate), as Python's `match.group(i)` used by
`findall`. -/
def capValue (caps : Caps) (i : Nat) : Str :=
  match (caps.filter (fun p => p.1 = i)).getLast? with
  | some p => p.2
  | none => []

/-- The value `matches[0] if isinstance(matches[0], str) else
matches[0][-1]` of `_extract_fields_by_type` (line 143): with at most
one group `findall` returns strings (the whole match for zero groups,
group 1 otherwise); with two or more groups it returns tuples, whose
last component is the highest-numbered group. -/
def codeValue (r : RE) (whole : Str) (caps : Caps) : Str :=
  if ngroups r ≤ 1 then
    (if ngroups r = 0 then whole else capValue caps 1)
  else capValue caps (ngroups r)

/-! ### Configured extraction patterns
(`keyword_extractor.py`, `self.field_definitions`, lines 25-68). -/

/-- Literal string as a regex. -/
def strRE (s : String) : RE := s.toList.foldr (fun c r => RE.seq (RE.lit c) r) RE.eps

def seqList (l : List RE) : RE := l.foldr RE.seq RE.eps

/-- Greedy `+`. -/
def rePlus (r : RE) : RE := RE.seq r (RE.star r)

/-- Exact repetition `{n}`. -/
def repExact : Nat → RE → RE
  | 0, _ => RE.eps
  | n + 1, r => RE.seq r (repExact n r)

/-- `[：:]` -/
def colonCls : RE := RE.cls false [CItem.ch '：', CItem.ch ':']

/-- `\s*` -/
def wsStar : RE := RE.star (RE.cls false [CItem.space])

/-- `[^\n\r]+` -/
def lineChars : RE := rePlus (RE.cls true [CItem.ch '\n', CItem.ch '\r'])

/-- `\d` -/
def digitCls : RE := RE.cls false [CItem.digit]

/-- `\d{1,2}` (greedy: two digits preferred). -/
def d12 : RE := RE.seq digitCls (RE.opt digitCls)

/-- `\d{4}[-年]\d{1,2}[-月]\d{1,2}[日天]?` -/
def dateRE : RE :=
  seqList [repExact 4 digitCls, RE.cls false [CItem.ch '-', CItem.ch '年'], d12,
    RE.cls false [CItem.ch '-', CItem.ch '月'], d12,
    RE.opt (RE.cls false [CItem.ch '日', CItem.ch '天'])]

/-- `[¥￥\$\w]+\d+(?:\.\d+)?` -/
def amountRE : RE :=
  seqList [rePlus (RE.cls false [CItem.ch '¥', CItem.ch '￥', CItem.ch '$', CItem.word]),
    rePlus digitCls, RE.opt (RE.seq (RE.lit '.') (rePlus digitCls))]

/-- `[A-Z\d]+` -/
def upperDigitRE : RE := rePlus (RE.cls false [CItem.crange 'A' 'Z', CItem.digit])

/-- `\d{17}[\dXx]` -/
def idNumberRE : RE :=
  RE.seq (repExact 17 digitCls) (RE.cls false [CItem.digit, CItem.ch 'X', CItem.ch 'x'])

/-- `[\d\s]+` -/
def digitSpaceRE : RE := rePlus (RE.cls false [CItem.digit, CItem.space])

/-- A configured field definition: `{"name": ..., "pattern": ...,
"description": ...}` (the description key is `label` here). -/
structure FieldDef where
  name : String
  pattern : RE
  label : String

/-- Pattern shape `(lab₁|...)[：:]\s*(value)` with two groups. -/
def labelled2 (labels : List String) (value : RE) : RE :=
  seqList [RE.grp 1 ((labels.map strRE).foldr RE.alt (RE.cls false [])), colonCls, wsStar,
    RE.grp 2 value]

/-- Pattern shape `lab[：:]\s*(value)` with one group. -/
def labelled1 (label : String) (value : RE) : RE :=
  seqList [strRE label, colonCls, wsStar, RE.grp 1 value]

/-- `self.field_definitions` (lines 25-68), pattern for pattern. -/
def fieldDefinitions : DocumentType → List FieldDef
  | DocumentType.medical_record =>
    [⟨"patient_name", labelled1 "患者" lineChars, "患者姓名"⟩,
     ⟨"diagnosis", labelled2 ["诊断", "初步诊断"] lineChars, "诊断结果"⟩,
     ⟨"admission_date", labelled2 ["入院日期", "住院日期"] dateRE, "入院日期"⟩,
     ⟨"discharge_date", labelled2 ["出院日期"] dateRE, "出院日期"⟩,
     ⟨"hospital_name", labelled2 ["医院", "医疗机构"] lineChars, "医院名称"⟩,
     ⟨"doctor_name", labelled2 ["主治医师", "医生"] lineChars, "医生姓名"⟩]
  | DocumentType.accident_report =>
    [⟨"accident_date", labelled2 ["事故日期", "发生时间"] dateRE, "事故日期"⟩,
     ⟨"accident_location", labelled2 ["事故地点", "现场位置"] lineChars, "事故地点"⟩,
     ⟨"parties_involved", labelled2 ["当事人", "涉事人员"] lineChars, "涉及人员"⟩,
     ⟨"accident_description", labelled2 ["事故经过", "简要描述"] lineChars, "事故描述"⟩,
     ⟨"police_station", labelled2 ["交警队", "派出所"] lineChars, "执法单位"⟩]
  | DocumentType.invoice =>
    [⟨"invoice_number", labelled2 ["发票号码", "发票号"] upperDigitRE, "发票号码"⟩,
     ⟨"invoice_amount", labelled2 ["金额", "合计"] amountRE, "发票金额"⟩,
     ⟨"invoice_date", labelled2 ["开票日期", "日期"] dateRE, "开票日期"⟩,
     ⟨"provider", labelled2 ["销售方", "收款方", "供应商"] lineChars, "提供商"⟩,
     ⟨"recipient", labelled2 ["购买方", "付款方", "客户"] lineChars, "接收方"⟩]
  | DocumentType.identity_card =>
    [⟨"name", labelled1 "姓名" lineChars, "姓名"⟩,
     ⟨"id_number", labelled1 "身份证号" idNumberRE, "身份证号"⟩,
     ⟨"gender", labelled1 "性别" lineChars, "性别"⟩,
     ⟨"birth_date", labelled1 "出生" dateRE, "出生日期"⟩,
     ⟨"address", labelled1 "住址" lineChars, "地址"⟩]
  | DocumentType.bank_statement =>
    [⟨"account_number", labelled2 ["账号", "卡号"] digitSpaceRE, "账户号码"⟩,
     ⟨"account_holder", labelled2 ["户名", "账户持有人"] lineChars, "账户持有人"⟩,
     ⟨"balance", labelled2 ["余额", "当前余额"] amountRE, "余额"⟩,
     ⟨"statement_period", labelled2 ["账单期间", "对账单期间"] lineChars, "账单期间"⟩]
  | DocumentType.insurance_contract =>
    [⟨"policy_number", labelled2 ["保单号", "保险单号"] upperDigitRE, "保单号"⟩,
     ⟨"policy_holder", labelled2 ["投保人"] lineChars, "投保人"⟩,
     ⟨"insured_person", labelled2 ["被保险人"] lineChars, "被保险人"⟩,
     ⟨"coverage_amount", labelled2 ["保险金额", "保额"] amountRE, "保险金额"⟩,
     ⟨"effective_date", labelled2 ["生效日期", "保险期间"] dateRE, "生效日期"⟩]

/-- `_extract_fields_by_type` (lines 120-156): for each configured
field definition, take the first `findall` match, select the value as
`codeValue`, strip it, and emit the field with fixed confidence 0.9.
No emptiness check is performed on the stripped value. -/
def extractFieldsByType (content : Str) (dt : DocumentType) : List ExtractedField :=
  (fieldDefinitions dt).filterMap (fun fd =>
    match reSearch fd.pattern content with
    | none => none
    | some m =>
      some { field_name := fd.name
             field_value := trimPy (codeValue fd.pattern m.1 m.2)
             confidence := 9/10 })

/-! ### Specification-side definitions

The following definitions are written from the specification's words
(not from the source); each theorem comparing them with the embedded
code says which claim they belong to. -/

/-- Per the specification's extraction contract: trim the value and
*skip the field if the trimmed value is empty*. -/
def extractSkipEmpty (content : Str) (dt : DocumentType) : List ExtractedField :=
  (fieldDefinitions dt).filterMap (fun fd =>
    match reSearch fd.pattern content with
    | none => none
    | some m =>
      let v := trimPy (codeValue fd.pattern m.1 m.2)
      if v.isEmpty then none
      else some { field_name := fd.name, field_value := v, confidence := 9/10 })

/-- Value selection as claimed: the last captured group of the first
match when the pattern has multiple (two or more) capture groups,
*otherwise the whole match*. -/
def claimedValueFewGroups (r : RE) (whole : Str) (caps : Caps) : Str :=
  if 2 ≤ ngroups r then capValue caps (ngroups r) else whole

/-- Extraction with the claimed value selection rule. -/
def extractClaimedC3 (content : Str) (dt : DocumentType) : List ExtractedField :=
  (fieldDefinitions dt).filterMap (fun fd =>
    match reSearch fd.pattern content with
    | none => none
    | some m =>
      some { field_name := fd.name
             field_value := trimPy (claimedValueFewGroups fd.pattern m.1 m.2)
             confidence := 9/10 })

/-- Amended value selection: the last captured group of the first
match whenever the pattern has at least one capture group; the whole
match only for group-free patterns. -/
def amendedValue (r : RE) (whole : Str) (caps : Caps) : Str :=
  if ngroups r = 0 then whole else capValue caps (ngroups r)

/-- Extraction with the amended value selection rule. -/
def extractAmendedC3 (content : Str) (dt : DocumentType) : List ExtractedField :=
  (fieldDefinitions dt).filterMap (fun fd =>
    match reSearch fd.pattern content with
    | none => none
    | some m =>
      some { field_name := fd.name
             field_value := trimPy (amendedValue fd.pattern m.1 m.2)
             confidence := 9/10 })

/-- Per the specification: the predicted type is the first
`DocumentType` in enumeration order achieving the maximum score. -/
def specFirstMaxType (content : Str) : Option DocumentType :=
  let scores := classifyScores content
  let m := scores.foldl (fun acc p => max acc p.2) 0
  (scores.find? (fun p => p.2 == m)).map (fun p => p.1)

/-- Per the claimed payout formula (for the covered, no-exclusions
case): parsed invoice amount times `1 - self_pay_ratio`, capped at the
policy's annual limit, rounded to two decimals, a missing or
unparseable amount counting as zero. -/
def specPayoutFormula (fields : FieldMap) (policy : PolicyInfo) : ℚ :=
  let amount :=
    (parseFirstNumber
      ((getFieldValue fields "invoice_amount" (strLit "0")).filter (fun c => c ≠ ','))).getD 0
  let uncapped := amount * (1 - policy.selfPayFrac)
  round2 (match policy.annualLimit with
    | some lim => min uncapped lim
    | none => uncapped)

/-- Per the claimed confidence formula: `0.9`, minus `0.3` if not
covered, minus `0.2` per exclusion, minus `0.1` per triggered risk,
floored at `0.1`. -/
def specConfidenceFormula (coverage_applicable : Bool)
    (exclusion_count risk_count : Nat) : ℚ :=
  max (9/10 - (if coverage_applicable then 0 else 3/10)
        - 2/10 * exclusion_count - 1/10 * risk_count) (1/10)

/-- A value carries no surrounding whitespace. -/
def noEdgeWS (l : Str) : Bool :=
  (match l.head? with
   | some c => !isSpacePy c
   | none => true)
  && (match l.getLast? with
      | some c => !isSpacePy c
      | none => true)

/-! Concrete inputs used by counterexamples and witnesses. -/

/-- Merged fields of a young female claimant whose age must be derived
from `birth_date` and whose diagnosis mentions pregnancy: the
gender/age risk rule's firing depends on the current date. -/
def clockFields : FieldMap :=
  [("gender", FieldEntry.mk (strLit "女") (9/10)),
   ("birth_date", FieldEntry.mk (strLit "2010-01-01") (9/10)),
   ("diagnosis", FieldEntry.mk (strLit "孕期检查") (9/10))]

/-- Merged fields with an explicit numeric age. -/
def numericAgeFields : FieldMap :=
  [("age", FieldEntry.mk (strLit "30") (9/10)),
   ("diagnosis", FieldEntry.mk (strLit "阑尾炎") (9/10))]

/-- Scenario fields: diagnosis plus a 25000-yuan invoice. -/
def scenarioFields : FieldMap :=
  [("diagnosis", FieldEntry.mk (strLit "阑尾炎") (9/10)),
   ("invoice_amount", FieldEntry.mk (strLit "¥25000.00") (9/10))]

/-- The field-assignment step of `_merge_extraction_results`. -/
def mergeStep (m : FieldMap) (f : ExtractedField) : FieldMap :=
  (f.field_name, FieldEntry.mk f.field_value f.confidence) :: m

/-! ### Theorems -/

/-- The confidence floor of `_calculate_evaluation_confidence`. -/
theorem confidence_floor (cov : Bool) (e r : Nat) :
    1/10 ≤ calculateEvaluationConfidence cov e r := by
  unfold calculateEvaluationConfidence
  exact le_max_right _ _

/-- Claim C10: the `contract_terms` argument of the liability
evaluation has no effect on the result — the selected policy bundle is
always the fixed basic health-insurance bundle, so evaluation outputs
are identical for any two `contract_terms` values (including none) and
`coverage_limit` is always 100000. -/
theorem claim_C10 (fields : FieldMap) (t₁ t₂ : Option String) (nowOrd : Int) :
    evaluateCore fields t₁ nowOrd = evaluateCore fields t₂ nowOrd
    ∧ (evaluateCore fields t₁ nowOrd).coverage_limit = some 100000 := by
  constructor
  · cases t₁ <;> cases t₂ <;> rfl
  · cases t₁ <;> rfl

/-- Claim C5: the evaluator's confidence equals 0.9 minus 0.3 if not
covered, minus 0.2 per exclusion factor, minus 0.1 per triggered risk
rule, floored at 0.1; hence the evaluator's confidence is always at
least 0.1. -/
theorem claim_C5 (cov : Bool) (e r : Nat) (fields : FieldMap)
    (ct : Option String) (nowOrd : Int) :
    calculateEvaluationConfidence cov e r = specConfidenceFormula cov e r
    ∧ 1/10 ≤ calculateEvaluationConfidence cov e r
    ∧ 1/10 ≤ (evaluateCore fields ct nowOrd).confidence := by
  refine ⟨?_, confidence_floor cov e r, confidence_floor _ _ _⟩
  unfold calculateEvaluationConfidence specConfidenceFormula
  rcases cov <;> rcases e with _ | e <;> rcases r with _ | r <;> simp

/-- Claim C4: if coverage does not apply or any exclusion factor is
present, the recommended payout is 0 regardless of the invoice amount;
otherwise it is the parsed invoice amount times `1 - self_pay_ratio`,
capped at the policy's annual limit and rounded to two decimals, a
missing or unparseable amount counting as 0. -/
theorem claim_C4 (fields : FieldMap) (policy : PolicyInfo) (cov : Bool)
    (exc : List Str) :
    (cov = false ∨ exc ≠ [] →
      calculateRecommendedPayout fields policy cov exc = 0)
    ∧ (cov = true → exc = [] →
      calculateRecommendedPayout fields policy cov exc
        = specPayoutFormula fields policy) := by
  constructor
  · rintro (rfl | h)
    · cases exc <;> rfl
    · rcases exc with _ | ⟨x, xs⟩
      · exact absurd rfl h
      · cases cov <;> rfl
  · rintro rfl rfl
    rfl

/-- Witness for claim C4 at concrete inputs: a claim with exclusions
zeroed out, and the 25000-yuan scenario paying
`22500 = 25000 × (1 − 0.1)`. -/
theorem claim_C4_witness :
    calculateRecommendedPayout scenarioFields healthInsuranceBasic false [] = 0
    ∧ calculateRecommendedPayout scenarioFields healthInsuranceBasic true []
        = specPayoutFormula scenarioFields healthInsuranceBasic
    ∧ specPayoutFormula scenarioFields healthInsuranceBasic = 22500 :=
  ⟨(claim_C4 scenarioFields healthInsuranceBasic false []).1 (Or.inl rfl),
   (claim_C4 scenarioFields healthInsuranceBasic true []).2 rfl rfl,
   by decide⟩

/-- Claim C1 (amended): evaluation is a deterministic function of the
merged fields, the policy terms and the current date.  The coverage
decision, exclusion factors, coverage limit and recommended payout
never depend on the current date; and whenever the `age` field is a
digit string (so the gender/age risk rule does not fall back to the
birth-date/clock computation), the whole evaluation result is
independent of the current date. -/
theorem claim_C1 (fields : FieldMap) (ct : Option String) (n₁ n₂ : Int) :
    ((evaluateCore fields ct n₁).coverage_applicable
        = (evaluateCore fields ct n₂).coverage_applicable
      ∧ (evaluateCore fields ct n₁).exclusion_factors
        = (evaluateCore fields ct n₂).exclusion_factors
      ∧ (evaluateCore fields ct n₁).coverage_limit
        = (evaluateCore fields ct n₂).coverage_limit
      ∧ (evaluateCore fields ct n₁).recommended_payout
        = (evaluateCore fields ct n₂).recommended_payout)
    ∧ (isdigitStr (getFieldValue fields "age" []) = true →
        evaluateCore fields ct n₁ = evaluateCore fields ct n₂) := by
  constructor
  · exact ⟨rfl, rfl, rfl, rfl⟩
  · intro hd
    have hg : checkGenderAgeInconsistency fields n₁
        = checkGenderAgeInconsistency fields n₂ := by
      unfold checkGenderAgeInconsistency
      simp only [hd, if_true]
    have hr : applyRiskRules fields n₁ = applyRiskRules fields n₂ := by
      unfold applyRiskRules riskRules
      simp only [List.filter, hg]
    simp only [evaluateCore]
    rw [hr]

/-- Counterexample for claim C1 as stated: two runs of the evaluator
on identical merged fields and identical (absent) policy terms, dated
2023-06-01 and 2035-06-01, disagree — the claimant born 2010-01-01 is
13 at the first date (the pregnancy-related gender/age risk rule
fires, confidence 0.8) but 25 at the second (no rule fires,
confidence 0.9). -/
theorem claim_C1_counterexample :
    evaluateCore clockFields none (ymd2ord 2023 6 1 : Int)
      ≠ evaluateCore clockFields none (ymd2ord 2035 6 1 : Int) := by
  decide

/-- Witness for claim C1 at concrete inputs: with the numeric age
field "30", evaluations dated 2023-06-01 and 2035-06-01 coincide. -/
theorem claim_C1_witness :
    isdigitStr (getFieldValue numericAgeFields "age" []) = true
    ∧ evaluateCore numericAgeFields none (ymd2ord 2023 6 1 : Int)
        = evaluateCore numericAgeFields none (ymd2ord 2035 6 1 : Int) :=
  ⟨by decide,
   (claim_C1 numericAgeFields none (ymd2ord 2023 6 1 : Int)
      (ymd2ord 2035 6 1 : Int)).2 (by decide)⟩

/-- Merging equals a single left fold of the assignment step over the
concatenation of all extracted-field lists, in processing order. -/
theorem mergeExtractionResults_eq_foldl (results : List ExtractionResult) :
    mergeExtractionResults results
      = (results.flatMap (fun r => r.extracted_fields)).foldl mergeStep [] := by
  suffices h : ∀ init : FieldMap, results.foldl
      (fun m r => r.extracted_fields.foldl mergeStep m) init
      = (results.flatMap (fun r => r.extracted_fields)).foldl mergeStep init from
    h []
  induction results with
  | nil => intro init; rfl
  | cons r rest ih =>
    intro init
    rw [List.foldl_cons, List.flatMap_cons, List.foldl_append]
    exact ih _

/-- Looking a key up after folding assignments over a field list
returns the entry of the last field with that name, falling back to
the initial map. -/
theorem lookup_foldl_mergeStep (fs : List ExtractedField) (init : FieldMap)
    (k : String) :
    List.lookup k (fs.foldl mergeStep init)
      = (match (fs.filter (fun f => f.field_name == k)).getLast? with
         | some f => some (FieldEntry.mk f.field_value f.confidence)
         | none => List.lookup k init) := by
  induction fs generalizing init with
  | nil => rfl
  | cons f t ih =>
    rw [List.foldl_cons, ih]
    by_cases hf : f.field_name = k
    · subst hf
      cases hfilter : t.filter (fun g => g.field_name == f.field_name) with
      | nil =>
        simp [List.filter_cons, hfilter, mergeStep, List.lookup]
      | cons g gs =>
        rcases hgl : (g :: gs).getLast? with _ | x
        · simp at hgl
        · simp [List.filter_cons, hfilter, hgl]
    · have hbeq : (f.field_name == k) = false := by
        simpa using hf
      have hbeq' : (k == f.field_name) = false := by
        simpa using Ne.symm hf
      cases hfilter : t.filter (fun g => g.field_name == k) with
      | nil =>
        simp [List.filter_cons, hbeq, hfilter, mergeStep, List.lookup, hbeq']
      | cons g gs =>
        rcases hgl : (g :: gs).getLast? with _ | x
        · simp at hgl
        · simp [List.filter_cons, hbeq, hfilter, hgl]

/-- Claim C7: the merged field map is keyed by `field_name` with
last-write-wins across documents in processing order — looking up a
name yields exactly the value and confidence of the last field with
that name in the concatenation of all extraction results. -/
theorem claim_C7 (results : List ExtractionResult) (name : String) :
    List.lookup name (mergeExtractionResults results)
      = ((results.flatMap (fun r => r.extracted_fields)).filter
          (fun f => f.field_name == name)).getLast?.map
        (fun f => FieldEntry.mk f.field_value f.confidence) := by
  rw [mergeExtractionResults_eq_foldl, lookup_foldl_mergeStep]
  cases ((results.flatMap (fun r => r.extracted_fields)).filter
      (fun f => f.field_name == name)).getLast? <;> rfl

/-- Claim C6: if no configured keyword of any document type occurs
case-insensitively in the text, classification returns exactly
`medical_record` with confidence 0.1 and, as alternatives, the first
three other document types in enumeration order. -/
theorem claim_C6 (content : Str)
    (h : ∀ dt ∈ supportedTypes, ∀ kw ∈ keywordMapping dt,
      containsSub (lowerStr kw) (lowerStr content) = false) :
    classify content
      = ClassificationRes.mk DocumentType.medical_record (1/10)
          [DocumentType.accident_report, DocumentType.invoice,
           DocumentType.identity_card] := by
  have hz : ∀ dt ∈ supportedTypes, scoreOf dt content = 0 := by
    intro dt hdt
    unfold scoreOf
    exact List.countP_eq_zero.mpr (fun kw hkw => by simp [h dt hdt kw hkw])
  have h1 := hz DocumentType.medical_record (by decide)
  have h2 := hz DocumentType.accident_report (by decide)
  have h3 := hz DocumentType.invoice (by decide)
  have h4 := hz DocumentType.identity_card (by decide)
  have h5 := hz DocumentType.bank_statement (by decide)
  have h6 := hz DocumentType.insurance_contract (by decide)
  unfold classify classifyContent classifyScores supportedTypes
  simp [h1, h2, h3, h4, h5, h6, pyMaxBySnd]
  decide

/-- Witness for claim C6 at a concrete input: no configured keyword
occurs in "hello". -/
theorem claim_C6_witness :
    (∀ dt ∈ supportedTypes, ∀ kw ∈ keywordMapping dt,
      containsSub (lowerStr kw) (lowerStr (strLit "hello")) = false)
    ∧ classify (strLit "hello")
      = ClassificationRes.mk DocumentType.medical_record (1/10)
          [DocumentType.accident_report, DocumentType.invoice,
           DocumentType.identity_card] :=
  ⟨by decide, claim_C6 (strLit "hello") (by decide)⟩

/-- Python's `max` over an association list keeps the first entry with
the maximal value: its value is the running maximum, that value bounds
the head, and `find?` for that value returns it. -/
theorem pyFold_spec {α : Type} (h : α × Nat) (t : List (α × Nat)) :
    h.2 ≤ (t.foldl (fun best x => if x.2 > best.2 then x else best) h).2
    ∧ (t.foldl (fun best x => if x.2 > best.2 then x else best) h).2
        = t.foldl (fun acc p => max acc p.2) h.2
    ∧ (h :: t).find?
          (fun p => p.2 == (t.foldl (fun best x => if x.2 > best.2 then x else best) h).2)
        = some (t.foldl (fun best x => if x.2 > best.2 then x else best) h) := by
  induction t generalizing h with
  | nil =>
    refine ⟨Nat.le_refl _, rfl, ?_⟩
    simp [List.find?]
  | cons x t ih =>
    simp only [List.foldl_cons]
    by_cases hx : x.2 > h.2
    · rw [if_pos hx]
      rcases ih x with ⟨ihle, iheq, ihfind⟩
      refine ⟨?_, ?_, ?_⟩
      · exact Nat.le_trans (Nat.le_of_lt hx) ihle
      · rw [iheq, Nat.max_eq_right (Nat.le_of_lt hx)]
      · have hne : (h.2 == (t.foldl (fun best x => if x.2 > best.2 then x else best) x).2)
            = false := by
          have hlt : h.2 < (t.foldl (fun best x => if x.2 > best.2 then x else best) x).2 :=
            Nat.lt_of_lt_of_le hx ihle
          exact beq_eq_false_iff_ne.mpr (Nat.ne_of_lt hlt)
        rw [List.find?, hne]
        exact ihfind
    · rw [if_neg hx]
      rcases ih h with ⟨ihle, iheq, ihfind⟩
      refine ⟨ihle, ?_, ?_⟩
      · rw [iheq, Nat.max_eq_left (Nat.le_of_not_lt hx)]
      · rcases hh : (h.2 == (t.foldl (fun best x => if x.2 > best.2 then x else best) h).2)
          with _ | _
        · -- head fails the test: the result lies in `t`, and `x` also
          -- fails the test because its value is at most `h.2`.
          have hfind' : t.find?
              (fun p => p.2 == (t.foldl (fun best x => if x.2 > best.2 then x else best) h).2)
              = some (t.foldl (fun best x => if x.2 > best.2 then x else best) h) := by
            rw [List.find?, hh] at ihfind
            exact ihfind
          have hxne : (x.2 == (t.foldl (fun best x => if x.2 > best.2 then x else best) h).2)
              = false := by
            rcases hxe : (x.2 == (t.foldl (fun best x => if x.2 > best.2 then x else best) h).2)
              with _ | _
            · rfl
            · exfalso
              have hxeq : x.2 = (t.foldl (fun best x => if x.2 > best.2 then x else best) h).2 :=
                eq_of_beq hxe
              have hle1 : (t.foldl (fun best x => if x.2 > best.2 then x else best) h).2 ≤ h.2 :=
                hxeq ▸ Nat.le_of_not_lt hx
              have heq2 : h.2 = (t.foldl (fun best x => if x.2 > best.2 then x else best) h).2 :=
                Nat.le_antisymm ihle hle1
              rw [heq2, beq_self_eq_true] at hh
              simp at hh
          rw [List.find?, hh, List.find?, hxne]
          exact hfind'
        · -- head passes the test: the fold result is the head itself.
          have hres : some h
              = some (t.foldl (fun best x => if x.2 > best.2 then x else best) h) := by
            rw [List.find?, hh] at ihfind
            exact ihfind
          rw [List.find?, hh]
          exact hres

/-- Claim C8: the predicted type is a document type with the maximum
keyword-presence score, and ties resolve to the first such type in
enumeration order — i.e. the prediction is exactly the first entry of
the score list (in enumeration order) achieving the maximum score. -/
theorem claim_C8 (content : Str) :
    some (classify content).predicted_type = specFirstMaxType content := by
  obtain ⟨hle, heq, hfind⟩ := pyFold_spec
    (DocumentType.medical_record, scoreOf DocumentType.medical_record content)
    [(DocumentType.accident_report, scoreOf DocumentType.accident_report content),
     (DocumentType.invoice, scoreOf DocumentType.invoice content),
     (DocumentType.identity_card, scoreOf DocumentType.identity_card content),
     (DocumentType.bank_statement, scoreOf DocumentType.bank_statement content),
     (DocumentType.insurance_contract, scoreOf DocumentType.insurance_contract content)]
  dsimp only at hle heq hfind
  show some (classifyContent content).1 = specFirstMaxType content
  unfold classifyContent specFirstMaxType classifyScores supportedTypes pyMaxBySnd
  simp only [List.map]
  conv_rhs => rw [List.foldl_cons]
  rw [Nat.zero_max, ← heq, hfind]
  by_cases hz : (List.foldl (fun best x => if x.2 > best.2 then x else best)
      (DocumentType.medical_record, scoreOf DocumentType.medical_record content)
      [(DocumentType.accident_report, scoreOf DocumentType.accident_report content),
       (DocumentType.invoice, scoreOf DocumentType.invoice content),
       (DocumentType.identity_card, scoreOf DocumentType.identity_card content),
       (DocumentType.bank_statement, scoreOf DocumentType.bank_statement content),
       (DocumentType.insurance_contract, scoreOf DocumentType.insurance_contract content)]).2
      = 0
  · rw [if_pos hz]
    have hm0 : scoreOf DocumentType.medical_record content = 0 := by omega
    have hhead : List.find? (fun p => p.2 ==
        (List.foldl (fun best x => if x.2 > best.2 then x else best)
          (DocumentType.medical_record, scoreOf DocumentType.medical_record content)
          [(DocumentType.accident_report, scoreOf DocumentType.accident_report content),
           (DocumentType.invoice, scoreOf DocumentType.invoice content),
           (DocumentType.identity_card, scoreOf DocumentType.identity_card content),
           (DocumentType.bank_statement, scoreOf DocumentType.bank_statement content),
           (DocumentType.insurance_contract, scoreOf DocumentType.insurance_contract content)]).2)
        ((DocumentType.medical_record, scoreOf DocumentType.medical_record content) ::
         [(DocumentType.accident_report, scoreOf DocumentType.accident_report content),
          (DocumentType.invoice, scoreOf DocumentType.invoice content),
          (DocumentType.identity_card, scoreOf DocumentType.identity_card content),
          (DocumentType.bank_statement, scoreOf DocumentType.bank_statement content),
          (DocumentType.insurance_contract, scoreOf DocumentType.insurance_contract content)])
        = some (DocumentType.medical_record, scoreOf DocumentType.medical_record content) := by
      apply List.find?_cons_of_pos
      rw [hz, hm0]
      rfl
    have hr := hhead.symm.trans hfind
    injection hr with hr
    rw [← hr]
    rfl
  · rw [if_neg hz]
    rfl

/-- A prefix of a list is a prefix of any extension of it. -/
theorem startsWithSub_append (n l u : Str) (h : startsWithSub n l = true) :
    startsWithSub n (l ++ u) = true := by
  induction n generalizing l with
  | nil => rfl
  | cons a as ih =>
    cases l with
    | nil => simp [startsWithSub] at h
    | cons b bs =>
      simp only [startsWithSub, Bool.and_eq_true, decide_eq_true_eq] at h
      simp only [List.cons_append, startsWithSub, Bool.and_eq_true, decide_eq_true_eq]
      exact ⟨h.1, ih bs h.2⟩

/-- The empty string occurs in every string. -/
theorem containsSub_nil_left (x : Str) : containsSub [] x = true := by
  cases x <;> simp [containsSub, startsWithSub]

/-- A substring occurrence survives appending text on the right. -/
theorem containsSub_append_right (n h u : Str) (hc : containsSub n h = true) :
    containsSub n (h ++ u) = true := by
  induction h with
  | nil =>
    cases n with
    | nil => simpa using containsSub_nil_left u
    | cons a as => simp [containsSub, startsWithSub] at hc
  | cons b bs ih =>
    simp only [containsSub, Bool.or_eq_true] at hc
    simp only [List.cons_append, containsSub, Bool.or_eq_true]
    rcases hc with hc | hc
    · exact Or.inl (startsWithSub_append n (b :: bs) u hc)
    · exact Or.inr (ih hc)

/-- Claim C9: classification scoring is monotonic — appending an
occurrence of one of a type's configured keywords to a text never
decreases that type's keyword-presence score. -/
theorem claim_C9 (content kw : Str) (dt : DocumentType)
    (_hkw : kw ∈ keywordMapping dt) :
    scoreOf dt content ≤ scoreOf dt (content ++ kw) := by
  unfold scoreOf
  apply List.countP_mono_left
  intro k _ hk
  simp only at hk ⊢
  unfold lowerStr
  rw [List.map_append]
  exact containsSub_append_right (lowerStr k) (List.map Char.toLower content)
    (List.map Char.toLower kw) hk

/-- Witness for claim C9 at a concrete input: appending the
medical-record keyword "病历" to "abc". -/
theorem claim_C9_witness :
    strLit "病历" ∈ keywordMapping DocumentType.medical_record
    ∧ scoreOf DocumentType.medical_record (strLit "abc")
        ≤ scoreOf DocumentType.medical_record (strLit "abc" ++ strLit "病历") :=
  ⟨by decide,
   claim_C9 (strLit "abc") (strLit "病历") DocumentType.medical_record (by decide)⟩

/-- The head surviving `dropWhile p` fails `p`. -/
theorem head?_dropWhile (p : Char → Bool) (m : Str) (c : Char)
    (h : (m.dropWhile p).head? = some c) : p c = false := by
  induction m with
  | nil => simp [List.dropWhile] at h
  | cons a t ih =>
    by_cases hp : p a = true
    · rw [List.dropWhile_cons_of_pos hp] at h
      exact ih h
    · rw [List.dropWhile_cons_of_neg hp] at h
      simp only [List.head?_cons, Option.some.injEq] at h
      subst h
      exact Bool.eq_false_iff.mpr hp

/-- The last element is unchanged by `dropWhile` as long as something
survives. -/
theorem getLast?_dropWhile_of (p : Char → Bool) (m : Str) (c : Char)
    (h : (m.dropWhile p).getLast? = some c) : m.getLast? = some c := by
  induction m with
  | nil => simp [List.dropWhile] at h
  | cons a t ih =>
    by_cases hp : p a = true
    · rw [List.dropWhile_cons_of_pos hp] at h
      have ht := ih h
      have htne : t ≠ [] := by
        intro he
        rw [he] at ht
        simp at ht
      rcases t with _ | ⟨b, bs⟩
      · exact absurd rfl htne
      · rw [List.getLast?_cons_cons]
        exact ht
    · rw [List.dropWhile_cons_of_neg hp] at h
      exact h

/-- Values produced by the Python `strip` model carry no surrounding
whitespace. -/
theorem noEdgeWS_trimPy (l : Str) : noEdgeWS (trimPy l) = true := by
  have hhead : ∀ c, (trimPy l).head? = some c → isSpacePy c = false := by
    intro c hc
    exact head?_dropWhile isSpacePy ((l.reverse.dropWhile isSpacePy).reverse) c hc
  have hlast : ∀ c, (trimPy l).getLast? = some c → isSpacePy c = false := by
    intro c hc
    have h2 : ((l.reverse.dropWhile isSpacePy).reverse).getLast? = some c :=
      getLast?_dropWhile_of isSpacePy ((l.reverse.dropWhile isSpacePy).reverse) c hc
    rw [List.getLast?_reverse] at h2
    exact head?_dropWhile isSpacePy l.reverse c h2
  unfold noEdgeWS
  rcases hh : (trimPy l).head? with _ | c
  · rcases hl : (trimPy l).getLast? with _ | d
    · rfl
    · simp [hlast d hl]
  · rcases hl : (trimPy l).getLast? with _ | d
    · simp [hhead c hh]
    · simp [hhead c hh, hlast d hl]

/-- Claim C2 (amended): every extracted field value is trimmed of
surrounding whitespace — its first and last characters, when present,
are not whitespace.  (The code performs no emptiness check: a field
whose trimmed value is empty is still included, see the
counterexample.) -/
theorem claim_C2 (content : Str) (dt : DocumentType) (f : ExtractedField)
    (hf : f ∈ extractFieldsByType content dt) : noEdgeWS f.field_value = true := by
  rcases List.mem_filterMap.mp hf with ⟨fd, _, hfd⟩
  rcases hs : reSearch fd.pattern content with _ | m
  · rw [hs] at hfd
    simp at hfd
  · rw [hs] at hfd
    simp only [Option.some.injEq] at hfd
    rw [← hfd]
    exact noEdgeWS_trimPy (codeValue fd.pattern m.1 m.2)

/-- Counterexample for claim C2 as stated: on the text `"患者： "`
(label, colon, one trailing space) the extractor emits the
`patient_name` field with an *empty* trimmed value instead of omitting
it, so the code's result differs from the skip-empty extraction the
specification describes. -/
theorem claim_C2_counterexample :
    extractFieldsByType (strLit "患者： ") DocumentType.medical_record
        = [ExtractedField.mk "patient_name" [] (9/10)]
    ∧ extractFieldsByType (strLit "患者： ") DocumentType.medical_record
        ≠ extractSkipEmpty (strLit "患者： ") DocumentType.medical_record :=
  ⟨by decide, by decide⟩

/-- Witness for claim C2 at a concrete input: the field extracted from
`"患者：张三"` carries no surrounding whitespace. -/
theorem claim_C2_witness :
    ExtractedField.mk "patient_name" (strLit "张三") (9/10)
        ∈ extractFieldsByType (strLit "患者：张三") DocumentType.medical_record
    ∧ noEdgeWS (ExtractedField.mk "patient_name" (strLit "张三") (9/10)).field_value
        = true :=
  ⟨by decide,
   claim_C2 (strLit "患者：张三") DocumentType.medical_record
     (ExtractedField.mk "patient_name" (strLit "张三") (9/10)) (by decide)⟩

/-- The value the code selects coincides with the amended rule: last
group when the pattern has at least one capture group, whole match
only for group-free patterns. -/
theorem codeValue_eq_amendedValue (r : RE) (w : Str) (c : Caps) :
    codeValue r w c = amendedValue r w c := by
  unfold codeValue amendedValue
  rcases hn : ngroups r with _ | n
  · simp
  · rcases n with _ | n
    · simp
    · have h1 : ¬ (n + 1 + 1 ≤ 1) := by omega
      have h2 : ¬ (n + 1 + 1 = 0) := by omega
      rw [if_neg h1, if_neg h2]

/-- Claim C3 (amended): for every text and document type, extraction
takes the first case-insensitive match of each configured pattern; the
field value is the last captured group of that first match whenever
the pattern has at least one capture group, and the whole match only
for a group-free pattern.  (For one-group patterns the value is that
group, not the whole match — see the counterexample.) -/
theorem claim_C3 (content : Str) (dt : DocumentType) :
    extractFieldsByType content dt = extractAmendedC3 content dt := by
  unfold extractFieldsByType extractAmendedC3
  apply List.filterMap_congr
  intro fd _
  rcases hs : reSearch fd.pattern content with _ | m
  · rfl
  · simp only [Option.some.injEq]
    rw [codeValue_eq_amendedValue]

/-- Counterexample for claim C3 as stated: the `patient_name` pattern
`患者[：:]\s*([^\n\r]+)` has exactly one capture group ("fewer than
two"), yet on `"患者：张三"` the extractor's value is the captured
group `"张三"`, not the whole match `"患者：张三"` the claim
prescribes. -/
theorem claim_C3_counterexample :
    extractFieldsByType (strLit "患者：张三") DocumentType.medical_record
        = [ExtractedField.mk "patient_name" (strLit "张三") (9/10)]
    ∧ extractClaimedC3 (strLit "患者：张三") DocumentType.medical_record
        = [ExtractedField.mk "patient_name" (strLit "患者：张三") (9/10)]
    ∧ extractFieldsByType (strLit "患者：张三") DocumentType.medical_record
        ≠ extractClaimedC3 (strLit "患者：张三") DocumentType.medical_record :=
  ⟨by decide, by decide, by decide⟩
